import Mathlib

/-!
Verification development for the Harmony Travels booking/ticket module
(source file ticket.js). The definitions below are a shallow embedding of
the JavaScript source: JS strings become String, JS integers become Nat,
exact JS number arithmetic is carried out in the rationals, fallible or
throwing code returns Except, and DOM/library effects are modelled as
explicit outcome values. Each definition names the source function it
embeds.
-/

/-- Whitespace test used by the embedding of the JS string trim and of
the whitespace regular expression: space, tab, newline, carriage return,
vertical tab and form feed. -/
def isWsChar (c : Char) : Bool :=
  c = ' ' || c = '\t' || c = '\n' || c = '\r' || c = Char.ofNat 11 || c = Char.ofNat 12

/-- Embedding of the JS String trim method: removes leading and trailing
whitespace characters. -/
def jsTrim (s : String) : String :=
  String.mk (((s.data.dropWhile (isWsChar ·)).reverse.dropWhile (isWsChar ·)).reverse)

/-- Embedding of the JS logical-or on strings (a || b): the empty string
is falsy, every other string is truthy. -/
def jsOrS (a b : String) : String := if a = "" then b else a

/-- Embedding of JS Math.round on an exact rational: floor of x + 1/2,
which is the JS rounding rule (half-way cases round up). -/
def jsMathRound (x : ℚ) : ℤ := ⌊x + 1 / 2⌋

/-- Maps a decimal digit value to its character, as JS number toString
does digit by digit. -/
def digitChar (d : ℕ) : Char := Char.ofNat (48 + d)

/-- Little-endian decimal digits with explicit fuel, so that the kernel
can evaluate the function on literals; the fuel bounds the recursion
depth and never runs out when it starts at n. -/
def decDigitsAux : ℕ → ℕ → List ℕ
  | 0, _ => []
  | fuel + 1, n => if n = 0 then [] else n % 10 :: decDigitsAux fuel (n / 10)

/-- Little-endian decimal digits of a natural number; proved equal to
Nat.digits 10 below. -/
def decDigits (n : ℕ) : List ℕ := decDigitsAux n n

/-- Embedding of JS Number toString (base 10) on a natural number, as a
character list: the big-endian decimal digits, with "0" for zero. -/
def natToDecChars (n : ℕ) : List Char :=
  if n = 0 then [Char.ofNat 48] else ((decDigits n).map digitChar).reverse

/-- Inverse reading of a big-endian decimal character string, used to
state what number a digit substring denotes. -/
def charToDigit (c : Char) : ℕ := c.toNat - 48

/-- Numeric value denoted by a big-endian decimal character string. -/
def decValue (s : List Char) : ℕ :=
  s.foldl (fun acc c => acc * 10 + charToDigit c) 0

/-- Embedding of the JS String padStart(2, zero) call used for month and
day in the booking id. -/
def padStart2 (s : List Char) : List Char :=
  List.replicate (2 - s.length) (Char.ofNat 48) ++ s

/-- Embedding of the JS String slice(-6) call on a character list: the
last six characters (the whole list when it is shorter). -/
def sliceLastSix (s : List Char) : List Char := s.drop (s.length - 6)

/- ---------- Price matrix (PRICE_MATRIX in ticket.js) ---------- -/

/-- One category entry of the price matrix: the provider list and the
class-name-to-unit-price mapping, in source order. -/
structure CategorySpec where
  providers : List String
  classes : List (String × ℕ)
deriving DecidableEq, Repr

/-- Embedding of the PRICE_MATRIX object literal of ticket.js: property
lookup by category name. -/
def PRICE_MATRIX : String → Option CategorySpec := fun c =>
  if c = "Bus" then
    some ⟨["Easy Coach", "Guardian"],
          [("Regular", 1500), ("Premium", 2500)]⟩
  else if c = "Flight" then
    some ⟨["Qatar Airways", "Kenya Airways"],
          [("Economy", 25000), ("Business", 45000), ("First Class", 70000)]⟩
  else if c = "Train" then
    some ⟨["SGR", "Electric Train"],
          [("Economy", 1000), ("Business", 2000), ("First Class", 3500)]⟩
  else none

/-- Property lookup in the classes object of a category (spec.classes of
ticket.js): first matching key wins. -/
def lookupClass (cls : String) : List (String × ℕ) → Option ℕ
  | [] => none
  | (k, v) :: rest => if k = cls then some v else lookupClass cls rest

/-- Embedding of getPrice of ticket.js: zero for a missing selection or
unknown category, otherwise the class price with zero as the JS
logical-or fallback. -/
def getPrice (transport cls : String) : ℕ :=
  if transport = "" ∨ cls = "" then 0
  else
    match PRICE_MATRIX transport with
    | none => 0
    | some s => (lookupClass cls s.classes).getD 0

/-- Embedding of populateOptions of ticket.js: both selection lists are
cleared, then, when the category is configured, filled with exactly the
configured providers and the class-object keys. -/
def populateOptions (transport : String) : List String × List String :=
  match PRICE_MATRIX transport with
  | none => ([], [])
  | some s => (s.providers, s.classes.map Prod.fst)

/-- Embedding of the tax computation of the submit handler
(Math.round(price * 0.05)): in exact arithmetic price * 0.05 is
price * 5 / 100, and rounding half up adds 50 / 100 before flooring, so
the result is natural-number division (price * 5 + 50) / 100. The
theorem computeTaxes_eq_round below proves this equal to the rational
formula floor(price * (5 / 100) + 1 / 2). -/
def computeTaxes (price : ℕ) : ℕ := (price * 5 + 50) / 100

example : computeTaxes 70000 = 3500 := by rfl

/- ---------- Booking record (the ticketData object of the submit handler) ---------- -/

/-- The nested route object of the ticket payload. -/
structure Route where
  origin : String
  destination : String
deriving DecidableEq, Repr, Inhabited

/-- The ticketData object built in the submit handler of ticket.js, with
its fields in source order. JS strings are String, the JS numbers are
naturals, and the distanceKm field (undefined in the source) is an
Option. -/
structure TicketData where
  bookingId : String
  passengerName : String
  contactPhone : String
  contactEmail : String
  transportType : String
  provider : String
  classOrSeat : String
  route : Route
  departDateTime : String
  arriveDateTime : String
  duration : String
  distanceKm : Option ℕ
  price : ℕ
  taxes : ℕ
  total : ℕ
  additionalNotes : String
  mapLink : String
  qrPayload : String
  logoUrl : String
deriving DecidableEq, Repr, Inhabited

/- ---------- JSON serialization (JSON.stringify / JSON.parse semantics) ---------- -/

/-- JSON values reachable from the ticket payload: strings, numbers and
objects (ordered field lists). -/
inductive Json where
  | str (s : String)
  | num (n : ℕ)
  | obj (fields : List (String × Json))

/-- Field lookup in a JSON object, the model of property access on a
parsed JSON value: first matching key, none when absent (undefined). -/
def Json.getField (j : Json) (k : String) : Option Json :=
  match j with
  | .obj fs => lookupField k fs
  | _ => none
where lookupField (k : String) : List (String × Json) → Option Json
  | [] => none
  | (k2, v) :: rest => if k2 = k then some v else lookupField k rest

/-- Serialization of the optional distanceKm field: JSON.stringify drops
object properties whose value is undefined. -/
def distanceKmFields : Option ℕ → List (String × Json)
  | none => []
  | some n => [("distanceKm", .num n)]

/-- Embedding of JSON.stringify on the ticketData object: the object
with its fields in source order, undefined-valued fields dropped. -/
def serializeTicket (t : TicketData) : Json :=
  .obj ([("bookingId", .str t.bookingId),
         ("passengerName", .str t.passengerName),
         ("contactPhone", .str t.contactPhone),
         ("contactEmail", .str t.contactEmail),
         ("transportType", .str t.transportType),
         ("provider", .str t.provider),
         ("classOrSeat", .str t.classOrSeat),
         ("route", .obj [("origin", .str t.route.origin),
                         ("destination", .str t.route.destination)]),
         ("departDateTime", .str t.departDateTime),
         ("arriveDateTime", .str t.arriveDateTime),
         ("duration", .str t.duration)]
        ++ distanceKmFields t.distanceKm
        ++ [("price", .num t.price),
            ("taxes", .num t.taxes),
            ("total", .num t.total),
            ("additionalNotes", .str t.additionalNotes),
            ("mapLink", .str t.mapLink),
            ("qrPayload", .str t.qrPayload),
            ("logoUrl", .str t.logoUrl)])

/-- Reads a string-valued field from a parsed JSON object. -/
def Json.getStr (j : Json) (k : String) : Option String :=
  match j.getField k with
  | some (.str s) => some s
  | _ => none

/-- Reads a number-valued field from a parsed JSON object. -/
def Json.getNat (j : Json) (k : String) : Option ℕ :=
  match j.getField k with
  | some (.num n) => some n
  | _ => none

/-- Reads back the optional distanceKm property: a parsed object with
the property absent yields undefined, matching the dropped field. -/
def readDistanceKm (j : Json) : Option (Option ℕ) :=
  match j.getField "distanceKm" with
  | none => some none
  | some (.num n) => some (some n)
  | some _ => none

/-- Reads back the identity and passenger fields of the payload. -/
def readIdentity (j : Json) : Option (String × String × String × String) := do
  let bookingId ← j.getStr "bookingId"
  let passengerName ← j.getStr "passengerName"
  let contactPhone ← j.getStr "contactPhone"
  let contactEmail ← j.getStr "contactEmail"
  pure (bookingId, passengerName, contactPhone, contactEmail)

/-- Reads back the trip fields and the nested route object. -/
def readTrip (j : Json) : Option (String × String × String × Route) := do
  let transportType ← j.getStr "transportType"
  let provider ← j.getStr "provider"
  let classOrSeat ← j.getStr "classOrSeat"
  let routeJson ← j.getField "route"
  let origin ← routeJson.getStr "origin"
  let destination ← routeJson.getStr "destination"
  pure (transportType, provider, classOrSeat, Route.mk origin destination)

/-- Reads back the timestamp and duration fields. -/
def readTimes (j : Json) : Option (String × String × String) := do
  let departDateTime ← j.getStr "departDateTime"
  let arriveDateTime ← j.getStr "arriveDateTime"
  let duration ← j.getStr "duration"
  pure (departDateTime, arriveDateTime, duration)

/-- Reads back the commercial fields. -/
def readMoney (j : Json) : Option (ℕ × ℕ × ℕ) := do
  let price ← j.getNat "price"
  let taxes ← j.getNat "taxes"
  let total ← j.getNat "total"
  pure (price, taxes, total)

/-- Reads back the presentation fields. -/
def readExtras (j : Json) : Option (String × String × String × String) := do
  let additionalNotes ← j.getStr "additionalNotes"
  let mapLink ← j.getStr "mapLink"
  let qrPayload ← j.getStr "qrPayload"
  let logoUrl ← j.getStr "logoUrl"
  pure (additionalNotes, mapLink, qrPayload, logoUrl)

/-- Reconstruction of a TicketData value from its parsed JSON form:
reading back every field of the ticket payload, with the absent
distanceKm property read as undefined. -/
def deserializeTicket (j : Json) : Option TicketData := do
  let idPart ← readIdentity j
  let tripPart ← readTrip j
  let timePart ← readTimes j
  let distanceKm ← readDistanceKm j
  let moneyPart ← readMoney j
  let extraPart ← readExtras j
  pure (TicketData.mk idPart.1 idPart.2.1 idPart.2.2.1 idPart.2.2.2
    tripPart.1 tripPart.2.1 tripPart.2.2.1 tripPart.2.2.2
    timePart.1 timePart.2.1 timePart.2.2 distanceKm
    moneyPart.1 moneyPart.2.1 moneyPart.2.2
    extraPart.1 extraPart.2.1 extraPart.2.2.1 extraPart.2.2.2)

/- ---------- Booking id (submit handler of ticket.js) ---------- -/

/-- Embedding of the booking id template of the submit handler:
HT- then getFullYear, then the month (one-based, padStart 2) and day
(padStart 2), a hyphen, and getTime().toString().slice(-6). The year,
month, day and millisecond timestamp are the components of the clock
value read at submission. -/
def bookingIdChars (year month day timeMs : ℕ) : List Char :=
  "HT-".data
    ++ natToDecChars year
    ++ padStart2 (natToDecChars month)
    ++ padStart2 (natToDecChars day)
    ++ ['-']
    ++ sliceLastSix (natToDecChars timeMs)

/-- The booking id as a string. -/
def mkBookingId (year month day timeMs : ℕ) : String :=
  String.mk (bookingIdChars year month day timeMs)

/- ---------- Submit handler (bookingForm submit listener of ticket.js) ---------- -/

/-- Uncatchable faults of the embedded JS: a TypeError or RangeError
escaping a handler (an unhandled exception or promise rejection). -/
inductive JsError where
  | typeError
  | rangeError
deriving DecidableEq, Repr

/-- Environment read by the submit handler: the clock components used
for the booking id (getFullYear, getMonth()+1, getDate, getTime), the
embedding of the Date-parse-then-toISOString conversion applied to the
depart and arrive inputs (none when the string parses to an Invalid
Date, in which case toISOString throws a RangeError), and the embedding
of encodeURIComponent used in the map link. -/
structure SubmitEnv where
  year : ℕ
  month : ℕ
  day : ℕ
  timeMs : ℕ
  toIso : String → Option String
  encodeURI : String → String

/-- The raw form field values read by the submit handler. -/
structure FormInput where
  passengerName : String
  phone : String
  email : String
  transport : String
  provider : String
  travelClass : String
  origin : String
  destination : String
  startDate : String
  endDate : String

/-- Observable effects of one run of the submit handler: whether the
validation alert fired, the booking record installed as current data
(via TicketRenderer.init), the record rendered into the container, the
session-storage write, and whether the form was reset (the handler
never resets it). -/
structure SubmitEffects where
  validationAlert : Bool
  record : Option TicketData
  rendered : Option TicketData
  storageWrite : Option (String × Json)
  formReset : Bool

/-- The validation test of the submit handler of ticket.js: name, phone
and email are trimmed before the emptiness test, the depart date is
tested untrimmed (the source reads it without a trim call). -/
def missingRequired (f : FormInput) : Bool :=
  jsTrim f.passengerName = "" || jsTrim f.phone = "" || jsTrim f.email = ""
    || f.startDate = ""

/-- The ticketData payload built by the submit handler after validation
passes and both date conversions succeed: booking id from the clock,
price from getPrice, taxes and total per the 5 percent rule, route
defaults through the JS logical-or; dep and arr are the toISOString
results for the depart and (possibly empty) arrive inputs. -/
def buildTicketData (env : SubmitEnv) (f : FormInput) (dep arr : String) : TicketData :=
  let bookingId := mkBookingId env.year env.month env.day env.timeMs
  let price := getPrice f.transport f.travelClass
  let taxes := computeTaxes price
  let origin := jsOrS f.origin "Nairobi"
  let destination := jsOrS f.destination "TBA"
  { bookingId := bookingId
    passengerName := jsTrim f.passengerName
    contactPhone := jsTrim f.phone
    contactEmail := jsTrim f.email
    transportType := f.transport
    provider := f.provider
    classOrSeat := f.travelClass
    route := { origin := origin, destination := destination }
    departDateTime := dep
    arriveDateTime := arr
    duration := ""
    distanceKm := none
    price := price
    taxes := taxes
    total := price + taxes
    additionalNotes := "Auto-generated ticket. Please arrive on time."
    mapLink := "https://www.google.com/maps/dir/?api=1&origin="
                 ++ env.encodeURI origin ++ "&destination="
                 ++ env.encodeURI destination
    qrPayload := "https://harmonytravels.example/verify/" ++ bookingId
    logoUrl := "" }

/-- Embedding of the bookingForm submit listener of ticket.js: alerts
and stops when a required field is missing; otherwise evaluates the
ticketData object literal, whose departDateTime field calls
toISOString on the parsed depart date — an unparsable depart date (or a
non-empty unparsable arrive date, evaluated next) makes that call throw
an uncaught RangeError, aborting the handler with no record, no render
and no storage write. When both conversions succeed the payload is
built, installed and rendered, and written to session storage under the
key booking_ followed by the booking id. The form is never reset. -/
def handleSubmit (env : SubmitEnv) (f : FormInput) : Except JsError SubmitEffects :=
  if missingRequired f then
    Except.ok
      { validationAlert := true, record := none, rendered := none,
        storageWrite := none, formReset := false }
  else
    match env.toIso f.startDate with
    | none => Except.error JsError.rangeError
    | some dep =>
      match (if f.endDate = "" then some "" else env.toIso f.endDate) with
      | none => Except.error JsError.rangeError
      | some arr =>
        let ticketData := buildTicketData env f dep arr
        Except.ok
          { validationAlert := false, record := some ticketData,
            rendered := some ticketData,
            storageWrite := some ("booking_" ++ ticketData.bookingId, serializeTicket ticketData),
            formReset := false }

/- ---------- Ticket renderer (buildHtml of ticket.js) ---------- -/

/-- Embedding of formatDate of ticket.js: TBA for a missing value,
otherwise the locale rendering of the parsed date. The locale rendering
(toLocaleString on the parsed Date) is passed in as the function fmt. -/
def formatDate (fmt : String → String) (iso : String) : String :=
  if iso = "" then "TBA" else fmt iso

/-- Embedding of computeDuration of ticket.js: empty when either end is
missing, empty when the parse fails (NaN) or the rounded minute count is
not positive, otherwise whole hours and minutes. Date parsing (the
millisecond value of new Date(s), none for an invalid date) is passed in
as parseMs. -/
def computeDuration (parseMs : String → Option ℤ) (startIso endIso : String) : String :=
  if startIso = "" ∨ endIso = "" then ""
  else
    match parseMs startIso, parseMs endIso with
    | some s, some e =>
      let mins := jsMathRound (((e - s : ℤ) : ℚ) / (1000 * 60))
      if mins ≤ 0 then ""
      else
        String.mk (natToDecChars (mins / 60).toNat) ++ "h "
          ++ String.mk (natToDecChars (mins % 60).toNat) ++ "m"
    | _, _ => ""

/-- The Arrive cell of the details grid in buildHtml of ticket.js:
TBA when the arrive timestamp is absent (the empty string is falsy),
otherwise the formatted date. -/
def renderedArrive (fmt : String → String) (d : TicketData) : String :=
  if d.arriveDateTime = "" then "TBA" else formatDate fmt d.arriveDateTime

/-- The Duration cell of the details grid in buildHtml of ticket.js:
the duration field, else the computed duration, else TBA, through the JS
logical-or chain. -/
def renderedDuration (parseMs : String → Option ℤ) (d : TicketData) : String :=
  jsOrS d.duration (jsOrS (computeDuration parseMs d.departDateTime d.arriveDateTime) "TBA")

/- ---------- Export pipeline (TicketRenderer closure of ticket.js) ---------- -/

/-- Availability of the external collaborators of the export pipeline:
the html2canvas rasterizer, the jspdf global with its jsPDF constructor,
whether a popup window may open, and whether clipboard access is
granted. -/
structure ExportEnv where
  html2canvasLoaded : Bool
  jspdfLoaded : Bool
  popupAllowed : Bool
  clipboardAllowed : Bool

/-- The mutable closure state of TicketRenderer: whether the container
variable has been set (by init) and the currentData variable. Both start
null. -/
structure RendererState where
  containerSet : Bool
  currentData : Option TicketData

/-- The closure state before any render call: container and currentData
are both null. -/
def initialRendererState : RendererState :=
  { containerSet := false, currentData := none }

/-- Embedding of TicketRenderer.init on an existing container: sets the
container and currentData variables. -/
def rendererInit (d : TicketData) : RendererState :=
  { containerSet := true, currentData := some d }

/-- User-observable outcome of one export operation. -/
inductive ExportOutcome where
  | downloaded (filename : String)
  | alertShown (msg : String)
  | toastShown (msg : String)
  | printedCurrentPage
  | printedPopup
deriving DecidableEq, Repr

/-- Embedding of the regular-expression replace of whitespace runs by a
single underscore used for the download file name. -/
def squashWsAux : Bool → List Char → List Char
  | _, [] => []
  | inWs, c :: cs =>
    if isWsChar c then
      (if inWs then [] else [Char.ofNat 95]) ++ squashWsAux true cs
    else c :: squashWsAux false cs

/-- The replacement starts outside a whitespace run. -/
def squashWs (s : List Char) : List Char := squashWsAux false s

/-- The download base name derived from the current booking id in
downloadPNG and downloadPDF: whitespace runs become underscores, with
the generic name for a falsy id. -/
def exportBaseName (d : TicketData) : String :=
  if d.bookingId = "" then "ticket" else String.mk (squashWs d.bookingId.data)

/-- Embedding of downloadPNG of ticket.js. The whole body runs inside a
try block: a missing rasterizer throws, and before any render the
currentData variable is null so reading its bookingId property throws;
both are caught and surface the recoverable alert. On the success path
the image download is triggered and the toast shown. -/
def downloadPNG (env : ExportEnv) (st : RendererState) : ExportOutcome :=
  if ¬ env.html2canvasLoaded then .alertShown "PNG generation failed."
  else
    match st.currentData with
    | none => .alertShown "PNG generation failed."
    | some d => .downloaded ("HarmonyTravels_Ticket_" ++ exportBaseName d ++ ".png")

/-- Embedding of downloadPDF of ticket.js. Its guard is the expression
not-jspdf AND not-jspdf.jsPDF, evaluated outside the try block: when the
jspdf global is absent the left conjunct is true and evaluating the
right conjunct dereferences undefined, so the call throws an uncaught
TypeError and the jsPDF-missing alert is never reached. When the library
is present the guard is false by short-circuit and the try body runs,
where rasterization failures and a null currentData are caught and
surface the recoverable alert. -/
def downloadPDF (env : ExportEnv) (st : RendererState) : Except JsError ExportOutcome :=
  if env.jspdfLoaded then
    Except.ok
      (if ¬ env.html2canvasLoaded then .alertShown "PDF generation failed."
       else
         match st.currentData with
         | none => .alertShown "PDF generation failed."
         | some d => .downloaded ("HarmonyTravels_Ticket_" ++ exportBaseName d ++ ".pdf"))
  else Except.error JsError.typeError

/-- Embedding of printTicket of ticket.js: with no container (no render
yet) it prints the current page directly; otherwise it opens a popup
print view, alerting when the popup is blocked. -/
def printTicket (env : ExportEnv) (st : RendererState) : ExportOutcome :=
  if st.containerSet then
    (if env.popupAllowed then .printedPopup else .alertShown "Popup blocked")
  else .printedCurrentPage

/-- Embedding of copyBookingId of ticket.js: the id is empty when
currentData is null or its bookingId is falsy; an empty id or a denied
clipboard surfaces a toast, otherwise the id is copied. -/
def copyBookingId (env : ExportEnv) (st : RendererState) : ExportOutcome :=
  let id := match st.currentData with
    | none => ""
    | some d => d.bookingId
  if id = "" then .toastShown "No booking ID"
  else if env.clipboardAllowed then .toastShown "Booking ID copied"
  else .toastShown "Copy failed"

/- ---------- PDF page fitting (downloadPDF of ticket.js) ---------- -/

/-- Embedding of the image placement arithmetic of downloadPDF: the
placed width starts at the full page width with the height scaled by the
aspect ratio; on height overflow the height becomes the full page height
with the width scaled back; the image is centered. Returns placed width,
height and the x and y offsets. -/
def fitImage (iw ih pageWidth pageHeight : ℚ) : ℚ × ℚ × ℚ × ℚ :=
  let w0 := pageWidth
  let h0 := (ih / iw) * w0
  let w := if h0 > pageHeight then (iw / ih) * pageHeight else w0
  let h := if h0 > pageHeight then pageHeight else h0
  ((w, h, (pageWidth - w) / 2, (pageHeight - h) / 2) : ℚ × ℚ × ℚ × ℚ)

/- ---------- Concrete sample inputs used as evaluation points ---------- -/

/-- A sample clock reading: 2025-10-11, millisecond timestamp
1760000123456, with a date conversion that accepts every string
unchanged and an identity URI encoder. -/
def wEnv : SubmitEnv :=
  { year := 2025, month := 10, day := 11, timeMs := 1760000123456,
    toIso := fun s => some s, encodeURI := fun s => s }

/-- The same clock, with a date conversion that rejects blank strings,
as new Date does on empty or whitespace-only input (Invalid Date, so
toISOString throws). -/
def wEnvWs : SubmitEnv :=
  { year := 2025, month := 10, day := 11, timeMs := 1760000123456,
    toIso := fun s => if jsTrim s = "" then none else some s,
    encodeURI := fun s => s }

/-- A filled form choosing Flight, First Class, with no arrive date. -/
def wFormFlight : FormInput :=
  { passengerName := "Alice Smith", phone := "0712345678",
    email := "alice@example.com", transport := "Flight",
    provider := "Qatar Airways", travelClass := "First Class",
    origin := "Nairobi", destination := "Doha",
    startDate := "2025-12-01T10:00", endDate := "" }

/-- A form whose depart date is whitespace only; the other required
fields are valid. -/
def wFormWsDate : FormInput :=
  { passengerName := "Alice", phone := "0712", email := "a@b.c",
    transport := "Bus", provider := "Easy Coach", travelClass := "Regular",
    origin := "", destination := "", startDate := " ", endDate := "" }

/-- A form whose passenger name is whitespace only. -/
def wFormNoName : FormInput :=
  { passengerName := "   ", phone := "0712", email := "a@b.c",
    transport := "Bus", provider := "", travelClass := "",
    origin := "", destination := "", startDate := "2025-12-01", endDate := "" }

/-- A valid form with empty origin and destination fields. -/
def wFormDefaults : FormInput :=
  { passengerName := "Bob", phone := "0700", email := "b@c.d",
    transport := "Train", provider := "SGR", travelClass := "Economy",
    origin := "", destination := "", startDate := "2025-11-20", endDate := "" }

/-- The record the handler builds for the sample Flight form. -/
def wTicketFlight : TicketData :=
  buildTicketData wEnv wFormFlight "2025-12-01T10:00" ""

/-- The full effects of the sample Flight submission. -/
def wEffFlight : SubmitEffects :=
  { validationAlert := false, record := some wTicketFlight,
    rendered := some wTicketFlight,
    storageWrite := some ("booking_" ++ wTicketFlight.bookingId, serializeTicket wTicketFlight),
    formReset := false }

/-- The record the handler builds for the sample defaulted-route form. -/
def wTicketDefaults : TicketData :=
  buildTicketData wEnv wFormDefaults "2025-11-20" ""

/-- An environment with every export collaborator available. -/
def fullExportEnv : ExportEnv :=
  { html2canvasLoaded := true, jspdfLoaded := true,
    popupAllowed := true, clipboardAllowed := true }

/-- An environment in which the jspdf global is absent. -/
def noJspdfEnv : ExportEnv :=
  { html2canvasLoaded := true, jspdfLoaded := false,
    popupAllowed := true, clipboardAllowed := true }

/- ====================================================================
   Lemmas and theorems
   ==================================================================== -/

theorem decDigitsAux_eq (fuel : ℕ) :
    ∀ n, n ≤ fuel → decDigitsAux fuel n = Nat.digits 10 n := by
  induction fuel with
  | zero =>
    intro n hn
    have h0 : n = 0 := Nat.le_zero.mp hn
    subst h0
    simp [decDigitsAux]
  | succ fuel ih =>
    intro n hn
    rcases Nat.eq_zero_or_pos n with h0 | hpos
    · subst h0; simp [decDigitsAux]
    · rw [decDigitsAux, if_neg (Nat.pos_iff_ne_zero.mp hpos),
        Nat.digits_def' (by norm_num) hpos, ih (n / 10) (by omega)]

theorem decDigits_eq (n : ℕ) : decDigits n = Nat.digits 10 n :=
  decDigitsAux_eq n n le_rfl

/-- The natural-number form of the tax computation agrees with the
exact-arithmetic JS formula Math.round(price * 0.05). -/
theorem computeTaxes_eq_round (p : ℕ) :
    (computeTaxes p : ℤ) = jsMathRound ((p : ℚ) * (5 / 100)) := by
  unfold computeTaxes jsMathRound
  have h : (p : ℚ) * (5 / 100) + 1 / 2 = ((p * 5 + 50 : ℕ) : ℚ) / ((100 : ℕ) : ℚ) := by
    push_cast
    ring
  rw [h, Rat.floor_natCast_div_natCast]
  exact_mod_cast rfl

theorem mod_ten_mul (n m : ℕ) (hm : 0 < m) :
    n % (10 * m) = n % 10 + 10 * (n / 10 % m) := by
  obtain ⟨a, ha⟩ : ∃ a, n / 10 % m = a := ⟨_, rfl⟩
  obtain ⟨c, hc⟩ : ∃ c, m * (n / 10 / m) = c := ⟨_, rfl⟩
  have h1 : a + c = n / 10 := by rw [← ha, ← hc]; exact Nat.mod_add_div _ _
  have h2 : n % 10 + 10 * (n / 10) = n := Nat.mod_add_div _ _
  have hlt : a < m := ha ▸ Nat.mod_lt _ hm
  have hsplit : n = (n % 10 + 10 * a) + (10 * m) * (n / 10 / m) := by
    have : (10 * m) * (n / 10 / m) = 10 * c := by rw [← hc]; ring
    omega
  have hbound : n % 10 + 10 * a < 10 * m := by
    have := Nat.mod_lt n (show 0 < 10 by norm_num)
    omega
  conv_lhs => rw [hsplit]
  rw [Nat.add_mul_mod_self_left, Nat.mod_eq_of_lt hbound, ha]

/-- The value of the low k decimal digits is the remainder modulo
ten to the k. -/
theorem ofDigits_take (k : ℕ) :
    ∀ n, Nat.ofDigits 10 ((Nat.digits 10 n).take k) = n % 10 ^ k := by
  induction k with
  | zero => intro n; simp [Nat.mod_one]
  | succ k ih =>
    intro n
    rcases Nat.eq_zero_or_pos n with h0 | hpos
    · subst h0; simp
    · rw [Nat.digits_def' (by norm_num) hpos, List.take_succ_cons,
        Nat.ofDigits_cons, ih (n / 10), pow_succ']
      exact (mod_ten_mul n (10 ^ k) (Nat.pos_pow_of_pos k (by norm_num))).symm

theorem charToDigit_digitChar {d : ℕ} (hd : d < 10) :
    charToDigit (digitChar d) = d := by
  interval_cases d <;> decide

theorem digitChar_isDigit {d : ℕ} (hd : d < 10) : (digitChar d).isDigit := by
  interval_cases d <;> decide

theorem decValue_concat (xs : List Char) (c : Char) :
    decValue (xs ++ [c]) = decValue xs * 10 + charToDigit c := by
  unfold decValue
  rw [List.foldl_append]
  rfl

theorem decValue_rev_map (l : List ℕ) (h : ∀ d ∈ l, d < 10) :
    decValue ((l.map digitChar).reverse) = Nat.ofDigits 10 l := by
  induction l with
  | nil => rfl
  | cons d l ih =>
    rw [List.map_cons, List.reverse_cons, decValue_concat,
      ih (fun x hx => h x (List.mem_cons_of_mem d hx)),
      charToDigit_digitChar (h d (List.mem_cons_self d l)), Nat.ofDigits_cons]
    ring

theorem decValue_natToDecChars (n : ℕ) : decValue (natToDecChars n) = n := by
  rcases Nat.eq_zero_or_pos n with h0 | hpos
  · subst h0; decide
  · have hne := Nat.pos_iff_ne_zero.mp hpos
    rw [natToDecChars, if_neg hne, decDigits_eq,
      decValue_rev_map _ (fun d hd => Nat.digits_lt_base (by norm_num) hd),
      Nat.ofDigits_digits]

theorem natToDecChars_isDigit (n : ℕ) : ∀ c ∈ natToDecChars n, c.isDigit := by
  intro c hc
  rcases Nat.eq_zero_or_pos n with h0 | hpos
  · subst h0
    rw [natToDecChars, if_pos rfl, List.mem_singleton] at hc
    subst hc; decide
  · have hne := Nat.pos_iff_ne_zero.mp hpos
    rw [natToDecChars, if_neg hne, List.mem_reverse] at hc
    obtain ⟨d, hd, rfl⟩ := List.mem_map.mp hc
    exact digitChar_isDigit (Nat.digits_lt_base (by norm_num) (decDigits_eq n ▸ hd))

theorem natToDecChars_length (n : ℕ) (h : n ≠ 0) :
    (natToDecChars n).length = Nat.log 10 n + 1 := by
  rw [natToDecChars, if_neg h, List.length_reverse, List.length_map,
    decDigits_eq, Nat.digits_len 10 n (by norm_num) h]

theorem padStart2_length {s : List Char} (h : s.length ≤ 2) :
    (padStart2 s).length = 2 := by
  simp only [padStart2, List.length_append, List.length_replicate]
  omega

theorem padStart2_isDigit {s : List Char} (h : ∀ c ∈ s, c.isDigit) :
    ∀ c ∈ padStart2 s, c.isDigit := by
  intro c hc
  rcases List.mem_append.mp hc with hz | hs
  · have := List.eq_of_mem_replicate hz
    subst this; decide
  · exact h c hs

theorem decValue_zeros (k : ℕ) (s : List Char) :
    decValue (List.replicate k (Char.ofNat 48) ++ s) = decValue s := by
  induction k with
  | zero => rfl
  | succ k ih =>
    rw [List.replicate_succ, List.cons_append]
    show decValue (Char.ofNat 48 :: (List.replicate k (Char.ofNat 48) ++ s)) = decValue s
    unfold decValue
    rw [List.foldl_cons]
    exact ih

theorem decValue_padStart2 (s : List Char) :
    decValue (padStart2 s) = decValue s := decValue_zeros _ s

theorem drop_reverse_eq {α : Type} (l : List α) (k : ℕ) :
    l.reverse.drop (l.length - k) = (l.take k).reverse := by
  have h2 : l.reverse = (l.drop k).reverse ++ (l.take k).reverse := by
    rw [← List.reverse_append, List.take_append_drop]
  have h3 : (l.drop k).reverse.length = l.length - k := by simp
  rw [h2, ← h3, List.drop_left]

/-- Serializing a ticket payload and reading it back restores every
field, whichever way the optional distance field was set. -/
theorem deserialize_serialize (t : TicketData) :
    deserializeTicket (serializeTicket t) = some t := by
  cases t with
  | mk bookingId passengerName contactPhone contactEmail transportType provider
      classOrSeat route departDateTime arriveDateTime duration distanceKm price
      taxes total additionalNotes mapLink qrPayload logoUrl =>
    cases route with
    | mk origin destination =>
      cases distanceKm with
      | none => rfl
      | some n => rfl

/-- A record comes out of the submit handler exactly when validation
passed and both date conversions succeeded, and then it is the built
payload for those conversion results. -/
theorem handleSubmit_record {env : SubmitEnv} {f : FormInput}
    {eff : SubmitEffects} {rec : TicketData}
    (h : handleSubmit env f = Except.ok eff) (hr : eff.record = some rec) :
    missingRequired f = false ∧
    ∃ dep arr, env.toIso f.startDate = some dep ∧
      (if f.endDate = "" then some "" else env.toIso f.endDate) = some arr ∧
      rec = buildTicketData env f dep arr := by
  unfold handleSubmit at h
  by_cases hm : missingRequired f
  · rw [if_pos hm] at h
    injection h with h
    subst h
    exact absurd hr (by simp)
  · rw [if_neg hm] at h
    cases hdep : env.toIso f.startDate with
    | none =>
      rw [hdep] at h
      exact absurd h (by simp)
    | some dep =>
      rw [hdep] at h
      cases harr : (if f.endDate = "" then some "" else env.toIso f.endDate) with
      | none =>
        rw [harr] at h
        exact absurd h (by simp)
      | some arr =>
        rw [harr] at h
        injection h with h
        subst h
        simp only [Option.some.injEq] at hr
        exact ⟨Bool.not_eq_true _ ▸ (by simpa using hm),
          dep, arr, rfl, rfl, hr.symm⟩

/-- On a failed validation the submit handler only alerts. -/
theorem handleSubmit_invalid {env : SubmitEnv} {f : FormInput}
    (h : missingRequired f = true) :
    handleSubmit env f = Except.ok
      { validationAlert := true, record := none, rendered := none,
        storageWrite := none, formReset := false } := by
  unfold handleSubmit
  rw [if_pos h]

/-- When validation passes but the depart date does not parse, the
handler throws an uncaught RangeError. -/
theorem handleSubmit_badDate {env : SubmitEnv} {f : FormInput}
    (hm : missingRequired f = false) (hdep : env.toIso f.startDate = none) :
    handleSubmit env f = Except.error JsError.rangeError := by
  unfold handleSubmit
  rw [if_neg (by simp [hm]), hdep]

/-- The trailing six characters of the decimal timestamp: six digit
characters denoting the timestamp modulo one million. -/
theorem sliceLastSix_spec {t : ℕ} (ht : 100000 ≤ t) :
    (sliceLastSix (natToDecChars t)).length = 6 ∧
    (∀ c ∈ sliceLastSix (natToDecChars t), c.isDigit) ∧
    decValue (sliceLastSix (natToDecChars t)) = t % 1000000 := by
  have hne : t ≠ 0 := by omega
  have hlog : 5 ≤ Nat.log 10 t := by
    rw [← Nat.pow_le_iff_le_log (by norm_num) hne]
    simpa using ht
  have hlen : 6 ≤ (Nat.digits 10 t).length := by
    rw [Nat.digits_len 10 t (by norm_num) hne]
    omega
  have hslice : sliceLastSix (natToDecChars t)
      = (((Nat.digits 10 t).take 6).map digitChar).reverse := by
    rw [natToDecChars, if_neg hne, decDigits_eq, sliceLastSix,
      List.length_reverse, List.length_map]
    have hd := drop_reverse_eq ((Nat.digits 10 t).map digitChar) 6
    rw [List.length_map] at hd
    rw [hd]
    congr 1
    simp [List.map_take]
  have htake : ∀ d ∈ (Nat.digits 10 t).take 6, d < 10 := fun d hd =>
    Nat.digits_lt_base (by norm_num) (List.take_subset 6 _ hd)
  refine ⟨?_, ?_, ?_⟩
  · rw [hslice, List.length_reverse, List.length_map, List.length_take]
    omega
  · intro c hc
    rw [hslice, List.mem_reverse] at hc
    obtain ⟨d, hd, rfl⟩ := List.mem_map.mp hc
    exact digitChar_isDigit (htake d hd)
  · rw [hslice, decValue_rev_map _ htake, ofDigits_take 6 t]
    norm_num

/- ---------- Claim theorems ---------- -/

/-- C1: every booking record built by a successful submission has taxes
equal to Math.round(price * 0.05) and total equal to price plus taxes;
in particular a Flight, First Class submission prices at 70000 with
taxes 3500 and total 73500. -/
theorem C1_taxes_total (env : SubmitEnv) (f : FormInput)
    (eff : SubmitEffects) (rec : TicketData)
    (h : handleSubmit env f = Except.ok eff) (hr : eff.record = some rec) :
    (rec.taxes : ℤ) = jsMathRound ((rec.price : ℚ) * (5 / 100)) ∧
    rec.total = rec.price + rec.taxes ∧
    (f.transport = "Flight" → f.travelClass = "First Class" →
      rec.price = 70000 ∧ rec.taxes = 3500 ∧ rec.total = 73500) := by
  obtain ⟨hm, dep, arr, hdep, harr, rfl⟩ := handleSubmit_record h hr
  refine ⟨?_, rfl, ?_⟩
  · exact computeTaxes_eq_round _
  · intro h1 h2
    simp only [buildTicketData]
    rw [h1, h2]
    exact ⟨rfl, rfl, rfl⟩

theorem C1_taxes_total_witness :
    handleSubmit wEnv wFormFlight = Except.ok wEffFlight ∧
    wEffFlight.record = some wTicketFlight ∧
    (wTicketFlight.taxes : ℤ)
      = jsMathRound ((wTicketFlight.price : ℚ) * (5 / 100)) ∧
    wTicketFlight.total = wTicketFlight.price + wTicketFlight.taxes ∧
    wTicketFlight.price = 70000 ∧
    wTicketFlight.taxes = 3500 ∧
    wTicketFlight.total = 73500 := by
  have h : handleSubmit wEnv wFormFlight = Except.ok wEffFlight := by rfl
  have hr : wEffFlight.record = some wTicketFlight := rfl
  have hc := C1_taxes_total wEnv wFormFlight wEffFlight wTicketFlight h hr
  exact ⟨h, hr, hc.1, hc.2.1, (hc.2.2 rfl rfl).1, (hc.2.2 rfl rfl).2.1, (hc.2.2 rfl rfl).2.2⟩

/-- C2: for every configured category the selection lists are populated
with exactly the configured providers and class names and the resolver
returns each configured class price; an unconfigured category resolves
to price zero with empty selection lists; Bus Premium resolves to 2500,
giving taxes 125 and total 2625. -/
theorem C2_pricing :
    (∀ c s, PRICE_MATRIX c = some s →
      populateOptions c = (s.providers, s.classes.map Prod.fst) ∧
      ∀ p ∈ s.classes, getPrice c p.1 = p.2) ∧
    (∀ c, PRICE_MATRIX c = none →
      (∀ cls, getPrice c cls = 0) ∧ populateOptions c = ([], [])) ∧
    getPrice "Bus" "Premium" = 2500 ∧
    computeTaxes 2500 = 125 ∧
    2500 + computeTaxes 2500 = 2625 := by
  refine ⟨?_, ?_, rfl, rfl, rfl⟩
  · intro c s h
    unfold PRICE_MATRIX at h
    split_ifs at h with h1 h2 h3
    · subst h1
      injection h with h
      subst h
      exact ⟨rfl, by decide⟩
    · subst h2
      injection h with h
      subst h
      exact ⟨rfl, by decide⟩
    · subst h3
      injection h with h
      subst h
      exact ⟨rfl, by decide⟩
  · intro c hc
    constructor
    · intro cls
      unfold getPrice
      by_cases he : c = "" ∨ cls = ""
      · rw [if_pos he]
      · rw [if_neg he, hc]
    · unfold populateOptions
      rw [hc]

theorem C2_pricing_witness :
    populateOptions "Bus" = (["Easy Coach", "Guardian"], ["Regular", "Premium"]) ∧
    getPrice "Bus" "Premium" = 2500 ∧
    computeTaxes 2500 = 125 ∧
    2500 + computeTaxes 2500 = 2625 ∧
    (∀ cls, getPrice "Boat" cls = 0) ∧
    populateOptions "Boat" = ([], []) := by
  have h1 := C2_pricing.1 "Bus"
    ⟨["Easy Coach", "Guardian"], [("Regular", 1500), ("Premium", 2500)]⟩ rfl
  have h2 := C2_pricing.2.1 "Boat" rfl
  exact ⟨h1.1, C2_pricing.2.2.1, C2_pricing.2.2.2.1, C2_pricing.2.2.2.2, h2.1, h2.2⟩

/-- C3 counterexample: a submission whose depart date is whitespace only
(so empty after trimming) is not caught by validation — the source never
trims the depart date — and no ValidationError is signalled: the handler
instead throws an uncaught RangeError when toISOString runs on the
Invalid Date parsed from the blank string. -/
theorem C3_counterexample :
    jsTrim " " = "" ∧
    missingRequired wFormWsDate = false ∧
    handleSubmit wEnvWs wFormWsDate = Except.error JsError.rangeError := by
  exact ⟨rfl, rfl, rfl⟩

/-- C3 (amended): when the trimmed passenger name, phone or email is
empty, or the depart date is the empty string (untrimmed), the handler
signals the validation alert and creates no record, writes nothing,
renders nothing and does not reset the form. A whitespace-only depart
date is not caught by this validation: the handler then throws an
uncaught RangeError from the date conversion, so no ValidationError is
signalled there either (though still no record, write or render
occurs). -/
theorem C3_validation (env : SubmitEnv) (f : FormInput) :
    (jsTrim f.passengerName = "" ∨ jsTrim f.phone = "" ∨
        jsTrim f.email = "" ∨ f.startDate = "" →
      handleSubmit env f = Except.ok
        { validationAlert := true, record := none, rendered := none,
          storageWrite := none, formReset := false }) ∧
    (missingRequired f = false → env.toIso f.startDate = none →
      handleSubmit env f = Except.error JsError.rangeError) := by
  constructor
  · intro h
    apply handleSubmit_invalid
    unfold missingRequired
    rcases h with h | h | h | h <;> simp [h]
  · intro hm hdep
    exact handleSubmit_badDate hm hdep

theorem C3_validation_witness :
    handleSubmit wEnvWs wFormNoName = Except.ok
      { validationAlert := true, record := none, rendered := none,
        storageWrite := none, formReset := false } ∧
    handleSubmit wEnvWs wFormWsDate = Except.error JsError.rangeError :=
  ⟨(C3_validation wEnvWs wFormNoName).1 (Or.inl rfl),
   (C3_validation wEnvWs wFormWsDate).2 rfl rfl⟩

/-- C4: every record built by a successful submission is written to the
session store under the key booking_ followed by its booking id, and
serializing then deserializing it restores a record identical in every
field. -/
theorem C4_roundtrip (env : SubmitEnv) (f : FormInput)
    (eff : SubmitEffects) (rec : TicketData)
    (h : handleSubmit env f = Except.ok eff) (hr : eff.record = some rec) :
    eff.storageWrite = some ("booking_" ++ rec.bookingId, serializeTicket rec) ∧
    deserializeTicket (serializeTicket rec) = some rec := by
  obtain ⟨hm, dep, arr, hdep, harr, rfl⟩ := handleSubmit_record h hr
  refine ⟨?_, deserialize_serialize _⟩
  unfold handleSubmit at h
  rw [if_neg (by simp [hm]), hdep, harr] at h
  injection h with h
  rw [← h]

theorem C4_roundtrip_witness :
    wEffFlight.storageWrite
      = some ("booking_" ++ wTicketFlight.bookingId, serializeTicket wTicketFlight) ∧
    deserializeTicket (serializeTicket wTicketFlight) = some wTicketFlight :=
  C4_roundtrip wEnv wFormFlight wEffFlight wTicketFlight (by rfl) rfl

/-- C7: when the jspdf global is absent, the guard of downloadPDF
dereferences undefined and the call throws an uncaught TypeError instead
of alerting that the library is missing — the code contradicts its own
jsPDF-missing alert, which is unreachable. -/
theorem C7_jspdf_guard (env : ExportEnv) (st : RendererState)
    (h : env.jspdfLoaded = false) :
    downloadPDF env st = Except.error JsError.typeError := by
  unfold downloadPDF
  rw [h]
  simp

theorem C7_jspdf_guard_witness :
    downloadPDF noJspdfEnv initialRendererState = Except.error JsError.typeError :=
  C7_jspdf_guard noJspdfEnv initialRendererState rfl

/-- C5 counterexample: the print export invoked before any render does
not signal an error outcome at all — it invokes the platform print flow
on the current page, so the claim fails for the print operation. -/
theorem C5_counterexample :
    printTicket fullExportEnv initialRendererState = ExportOutcome.printedCurrentPage := rfl

/-- C5 (amended): before any render, the image export and the document
export surface a recoverable alert (the document export only when the
jspdf library is present, see C7), the copy export surfaces a toast, and
none of the three performs its export; the print export instead falls
through to a direct print of the current page. -/
theorem C5_export_before_render (env : ExportEnv) (st : RendererState)
    (hc : st.containerSet = false) (hd : st.currentData = none) :
    downloadPNG env st = ExportOutcome.alertShown "PNG generation failed." ∧
    (env.jspdfLoaded = true →
      downloadPDF env st = Except.ok (ExportOutcome.alertShown "PDF generation failed.")) ∧
    copyBookingId env st = ExportOutcome.toastShown "No booking ID" ∧
    printTicket env st = ExportOutcome.printedCurrentPage := by
  refine ⟨?_, ?_, ?_, ?_⟩
  · unfold downloadPNG
    rw [hd]
    by_cases h : env.html2canvasLoaded <;> simp [h]
  · intro hj
    unfold downloadPDF
    rw [hj, hd]
    by_cases h : env.html2canvasLoaded <;> simp [h]
  · unfold copyBookingId
    rw [hd]
    rfl
  · unfold printTicket
    rw [hc]
    rfl

theorem C5_export_before_render_witness :
    downloadPNG fullExportEnv initialRendererState
      = ExportOutcome.alertShown "PNG generation failed." ∧
    downloadPDF fullExportEnv initialRendererState
      = Except.ok (ExportOutcome.alertShown "PDF generation failed.") ∧
    copyBookingId fullExportEnv initialRendererState
      = ExportOutcome.toastShown "No booking ID" ∧
    printTicket fullExportEnv initialRendererState
      = ExportOutcome.printedCurrentPage := by
  have h := C5_export_before_render fullExportEnv initialRendererState rfl rfl
  exact ⟨h.1, h.2.1 rfl, h.2.2.1, h.2.2.2⟩

/-- C6 counterexample: a 100 by 100 capture placed on a 297 by 210 page
is placed at width 210, larger than its captured width, so the operation
does scale the image up beyond its captured size. -/
theorem C6_counterexample :
    (fitImage 100 100 297 210).1 = 210 ∧ ¬ (fitImage 100 100 297 210).1 ≤ 100 := by
  constructor <;> norm_num [fitImage]

/-- C6 (amended): the placed image preserves the aspect ratio, fits the
page in both dimensions and is centered, and it always fills the full
page width or the full page height — which may scale the capture up as
well as down (there is no never-upscale guard). -/
theorem C6_fit (iw ih W H : ℚ) (hiw : 0 < iw) (hih : 0 < ih)
    (hW : 0 < W) (hH : 0 < H) :
    (fitImage iw ih W H).1 ≤ W ∧
    (fitImage iw ih W H).2.1 ≤ H ∧
    (fitImage iw ih W H).2.1 * iw = (fitImage iw ih W H).1 * ih ∧
    (fitImage iw ih W H).2.2.1 = (W - (fitImage iw ih W H).1) / 2 ∧
    (fitImage iw ih W H).2.2.2 = (H - (fitImage iw ih W H).2.1) / 2 ∧
    ((fitImage iw ih W H).1 = W ∨ (fitImage iw ih W H).2.1 = H) := by
  rcases le_or_lt ((ih / iw) * W) H with hle | hgt
  · have he : fitImage iw ih W H
        = ((W, (ih / iw) * W, (W - W) / 2, (H - (ih / iw) * W) / 2) : ℚ × ℚ × ℚ × ℚ) := by
      simp only [fitImage]
      rw [if_neg (not_lt.mpr hle), if_neg (not_lt.mpr hle)]
    rw [he]
    refine ⟨le_refl W, hle, ?_, rfl, rfl, Or.inl rfl⟩
    field_simp
    ring
  · have he : fitImage iw ih W H
        = (((iw / ih) * H, H, (W - (iw / ih) * H) / 2, (H - H) / 2) : ℚ × ℚ × ℚ × ℚ) := by
      simp only [fitImage]
      rw [if_pos hgt, if_pos hgt]
    rw [he]
    refine ⟨?_, le_refl H, ?_, rfl, rfl, Or.inr rfl⟩
    · rw [div_mul_eq_mul_div, div_le_iff₀ hih]
      rw [div_mul_eq_mul_div, lt_div_iff₀ hiw] at hgt
      nlinarith
    · field_simp
      ring

theorem C6_fit_witness :
    (fitImage 100 50 297 210).1 ≤ 297 ∧
    (fitImage 100 50 297 210).2.1 ≤ 210 ∧
    (fitImage 100 50 297 210).2.1 * 100 = (fitImage 100 50 297 210).1 * 50 ∧
    (fitImage 100 50 297 210).2.2.1 = (297 - (fitImage 100 50 297 210).1) / 2 ∧
    (fitImage 100 50 297 210).2.2.2 = (210 - (fitImage 100 50 297 210).2.1) / 2 ∧
    ((fitImage 100 50 297 210).1 = 297 ∨ (fitImage 100 50 297 210).2.1 = 210) :=
  C6_fit 100 50 297 210 (by norm_num) (by norm_num) (by norm_num) (by norm_num)

/-- C8: the booking id of every record built at submission is the clock
rendering HT-YYYYMMDD- followed by the trailing six timestamp digits:
for a four-digit year, a valid month and day, and a timestamp of at
least six digits, the generated id decomposes into the literal HT-, four
year digits, two zero-padded month digits, two zero-padded day digits, a
hyphen, and six digits denoting the timestamp modulo one million. -/
theorem C8_bookingId_format :
    (∀ env f eff rec, handleSubmit env f = Except.ok eff → eff.record = some rec →
      rec.bookingId = mkBookingId env.year env.month env.day env.timeMs) ∧
    (∀ y mo dd t, 1000 ≤ y → y < 10000 → 1 ≤ mo → mo ≤ 12 →
      1 ≤ dd → dd ≤ 31 → 100000 ≤ t →
      bookingIdChars y mo dd t =
        "HT-".data ++ natToDecChars y ++ padStart2 (natToDecChars mo)
          ++ padStart2 (natToDecChars dd) ++ ['-']
          ++ sliceLastSix (natToDecChars t) ∧
      (natToDecChars y).length = 4 ∧
      decValue (natToDecChars y) = y ∧
      (∀ c ∈ natToDecChars y, c.isDigit) ∧
      (padStart2 (natToDecChars mo)).length = 2 ∧
      decValue (padStart2 (natToDecChars mo)) = mo ∧
      (∀ c ∈ padStart2 (natToDecChars mo), c.isDigit) ∧
      (padStart2 (natToDecChars dd)).length = 2 ∧
      decValue (padStart2 (natToDecChars dd)) = dd ∧
      (∀ c ∈ padStart2 (natToDecChars dd), c.isDigit) ∧
      (sliceLastSix (natToDecChars t)).length = 6 ∧
      (∀ c ∈ sliceLastSix (natToDecChars t), c.isDigit) ∧
      decValue (sliceLastSix (natToDecChars t)) = t % 1000000) := by
  constructor
  · intro env f eff rec h hr
    obtain ⟨hm, dep, arr, hdep, harr, rfl⟩ := handleSubmit_record h hr
    rfl
  · intro y mo dd t hy1 hy2 hmo1 hmo2 hdd1 hdd2 ht
    have hy0 : y ≠ 0 := by omega
    have hlogy : Nat.log 10 y = 3 := by
      apply Nat.log_eq_of_pow_le_of_lt_pow
      · norm_num
        omega
      · norm_num
        omega
    have hmolen : (natToDecChars mo).length ≤ 2 := by
      rw [natToDecChars_length mo (by omega)]
      have h100 : mo < 10 ^ 2 := by norm_num; omega
      have := (Nat.lt_pow_iff_log_lt (by norm_num) (by omega : mo ≠ 0)).mp h100
      omega
    have hddlen : (natToDecChars dd).length ≤ 2 := by
      rw [natToDecChars_length dd (by omega)]
      have h100 : dd < 10 ^ 2 := by norm_num; omega
      have := (Nat.lt_pow_iff_log_lt (by norm_num) (by omega : dd ≠ 0)).mp h100
      omega
    obtain ⟨hs1, hs2, hs3⟩ := sliceLastSix_spec ht
    refine ⟨rfl, ?_, decValue_natToDecChars y, natToDecChars_isDigit y,
      padStart2_length hmolen, ?_, padStart2_isDigit (natToDecChars_isDigit mo),
      padStart2_length hddlen, ?_, padStart2_isDigit (natToDecChars_isDigit dd),
      hs1, hs2, hs3⟩
    · rw [natToDecChars_length y hy0, hlogy]
    · rw [decValue_padStart2, decValue_natToDecChars]
    · rw [decValue_padStart2, decValue_natToDecChars]

theorem C8_bookingId_format_witness :
    handleSubmit wEnv wFormFlight = Except.ok wEffFlight ∧
    wTicketFlight.bookingId = mkBookingId 2025 10 11 1760000123456 ∧
    (natToDecChars 2025).length = 4 ∧
    (sliceLastSix (natToDecChars 1760000123456)).length = 6 ∧
    decValue (sliceLastSix (natToDecChars 1760000123456)) = 1760000123456 % 1000000 := by
  have h : handleSubmit wEnv wFormFlight = Except.ok wEffFlight := by rfl
  have h1 := C8_bookingId_format.1 wEnv wFormFlight wEffFlight wTicketFlight h rfl
  have h2 := C8_bookingId_format.2 2025 10 11 1760000123456
    (by norm_num) (by norm_num) (by norm_num) (by norm_num)
    (by norm_num) (by norm_num) (by norm_num)
  obtain ⟨-, hy4, -, -, -, -, -, -, -, -, hs6, -, hval⟩ := h2
  exact ⟨h, h1, hy4, hs6, hval⟩

/-- C9: a booking record built by a submission with no arrive timestamp
renders TBA in the Arrive cell and TBA in the Duration cell; neither is
blank. -/
theorem C9_arrive_tba (fmt : String → String) (parseMs : String → Option ℤ)
    (env : SubmitEnv) (f : FormInput) (eff : SubmitEffects) (rec : TicketData)
    (h : handleSubmit env f = Except.ok eff) (hr : eff.record = some rec)
    (ha : rec.arriveDateTime = "") :
    renderedArrive fmt rec = "TBA" ∧
    renderedDuration parseMs rec = "TBA" ∧
    ("TBA" : String) ≠ "" := by
  obtain ⟨hm, dep, arr, hdep, harr, rfl⟩ := handleSubmit_record h hr
  refine ⟨?_, ?_, by decide⟩
  · unfold renderedArrive
    rw [if_pos ha]
  · have hd : (buildTicketData env f dep arr).duration = "" := rfl
    unfold renderedDuration
    rw [hd, ha]
    unfold computeDuration
    rw [if_pos (Or.inr rfl)]
    rfl

theorem C9_arrive_tba_witness :
    renderedArrive (fun s => s) wTicketFlight = "TBA" ∧
    renderedDuration (fun _ => none) wTicketFlight = "TBA" := by
  have h := C9_arrive_tba (fun s => s) (fun _ => none) wEnv wFormFlight
    wEffFlight wTicketFlight (by rfl) rfl (by rfl)
  exact ⟨h.1, h.2.1⟩

/-- C10: an otherwise-valid submission always succeeds regardless of the
origin and destination fields; an empty origin defaults the route origin
to Nairobi and an empty destination defaults the route destination to
TBA. -/
theorem C10_route_defaults (env : SubmitEnv) (f : FormInput)
    (hn : jsTrim f.passengerName ≠ "") (hp : jsTrim f.phone ≠ "")
    (he : jsTrim f.email ≠ "") (hs : f.startDate ≠ "")
    (dep arr : String) (hdep : env.toIso f.startDate = some dep)
    (harr : (if f.endDate = "" then some "" else env.toIso f.endDate) = some arr) :
    handleSubmit env f = Except.ok
      { validationAlert := false,
        record := some (buildTicketData env f dep arr),
        rendered := some (buildTicketData env f dep arr),
        storageWrite := some ("booking_" ++ (buildTicketData env f dep arr).bookingId,
                              serializeTicket (buildTicketData env f dep arr)),
        formReset := false } ∧
    (f.origin = "" → (buildTicketData env f dep arr).route.origin = "Nairobi") ∧
    (f.destination = "" → (buildTicketData env f dep arr).route.destination = "TBA") := by
  have hm : missingRequired f = false := by
    unfold missingRequired
    simp [hn, hp, he, hs]
  refine ⟨?_, ?_, ?_⟩
  · unfold handleSubmit
    rw [if_neg (by simp [hm]), hdep, harr]
  · intro h0
    simp [buildTicketData, jsOrS, h0]
  · intro h0
    simp [buildTicketData, jsOrS, h0]

theorem C10_route_defaults_witness :
    handleSubmit wEnv wFormDefaults = Except.ok
      { validationAlert := false,
        record := some wTicketDefaults,
        rendered := some wTicketDefaults,
        storageWrite := some ("booking_" ++ wTicketDefaults.bookingId,
                              serializeTicket wTicketDefaults),
        formReset := false } ∧
    wTicketDefaults.route.origin = "Nairobi" ∧
    wTicketDefaults.route.destination = "TBA" := by
  have h := C10_route_defaults wEnv wFormDefaults
    (by decide) (by decide) (by decide) (by decide)
    "2025-11-20" "" rfl rfl
  exact ⟨h.1, h.2.1 rfl, h.2.2 rfl⟩
